import Mathlib

/-!
Verification development for an NHL betting-model codebase.

The TypeScript sources are embedded shallowly:
  * numbers are modelled as `ℚ` (or `ℝ` where the code applies `Math.exp` /
    `Math.sqrt`), with JavaScript truthiness (`x || d` returning `d` when `x`
    is `0`, `""` or `undefined`) made explicit through the `Js` helpers;
  * JavaScript `Set` / `Map` values are modelled as lists with
    insert-if-absent / overwrite-by-key operations;
  * remote fetches are modelled by passing the fetched records as arguments;
    cache writes and console logging are dropped;
  * display-only string fields that format floating-point numbers
    (`reasons`, `edgePercent`, `reasoning` arrays) are omitted from the
    embedded records.
-/

namespace Js

/-- JavaScript `a || b` for an optional number: `undefined` and `0` are falsy. -/
def orQ (a : Option ℚ) (b : ℚ) : ℚ :=
  match a with
  | some x => if x = 0 then b else x
  | none => b

/-- JavaScript `a || b` for an optional string: `undefined` and `""` are falsy. -/
def orS (a : Option String) (b : String) : String :=
  match a with
  | some x => if x = "" then b else x
  | none => b

/-- JavaScript `Math.round`: round half toward positive infinity. -/
def round (x : ℚ) : ℤ := ⌊x + 1/2⌋

/-- A dynamically typed JavaScript id value (ESPN ids are strings, NHL ids numbers). -/
inductive Id' where
  | num (n : ℕ)
  | str (s : String)
  | undef
deriving DecidableEq, Repr

/-- JavaScript strict equality `===` on id values. -/
def idEq : Id' → Id' → Bool
  | .num a, .num b => a = b
  | .str a, .str b => a = b
  | .undef, .undef => true
  | _, _ => false

/-- JavaScript truthiness of an id value (`0` and `""` are falsy). -/
def idTruthy : Id' → Bool
  | .num n => n ≠ 0
  | .str s => s ≠ ""
  | .undef => false

/-- JavaScript `Set.add`: append the element if it is not already present
(JavaScript sets keep insertion order). -/
def insertSet (l : List String) (x : String) : List String :=
  if x ∈ l then l else l ++ [x]

/-- JavaScript `Map.get`, first matching key. -/
def getA {α : Type} : List (String × α) → String → Option α
  | [], _ => none
  | p :: rest, k => if p.1 = k then some p.2 else getA rest k

/-- JavaScript `Map.set`: overwrite the entry for the key if present (keeping its
position), else append. -/
def setA {α : Type} : List (String × α) → String → α → List (String × α)
  | [], k, v => [(k, v)]
  | p :: rest, k, v => if p.1 = k then (k, v) :: rest else p :: setA rest k v

end Js

/-! ## Bet classification service (`classifyBet` and helpers) -/

namespace Bets

inductive BetClassification where
  | best_bet
  | strong_value
  | value
  | lean
  | none
deriving DecidableEq, Repr

inductive PropType where
  | goalscorer
  | shots
  | assists
  | points
  | saves
deriving DecidableEq, Repr

inductive VarianceLevel where
  | low
  | medium
  | high
deriving DecidableEq, Repr

structure PropThresholds where
  minEdgeValue : ℚ
  minEdgeStrong : ℚ
  minEdgeBest : ℚ
  minGamesPlayed : ℚ
  varianceLevel : VarianceLevel
deriving Repr

/-- The `PROP_THRESHOLDS` table, keyed by prop type. -/
def PROP_THRESHOLDS : PropType → PropThresholds
  | .shots => ⟨0.03, 0.05, 0.07, 15, .low⟩
  | .saves => ⟨0.03, 0.05, 0.07, 20, .low⟩
  | .points => ⟨0.03, 0.05, 0.08, 20, .medium⟩
  | .goalscorer => ⟨0.05, 0.07, 0.10, 30, .high⟩
  | .assists => ⟨0.04, 0.06, 0.08, 20, .high⟩

def MIN_PROB_FOR_LEAN : ℚ := 0.50
def MIN_PROB_FOR_BEST : ℚ := 0.55
def MIN_CONFIDENCE_VALUE : ℚ := 0.50
def MIN_CONFIDENCE_STRONG : ℚ := 0.65
def MIN_CONFIDENCE_BEST : ℚ := 0.75
def MAX_EDGE_SUSPICIOUS : ℚ := 0.25

/-- The `KELLY_FRACTIONS` table. -/
def KELLY_FRACTIONS : BetClassification → ℚ
  | .best_bet => 0.50
  | .strong_value => 0.25
  | .value => 0.15
  | .lean => 0.10
  | .none => 0

/-- The function `americanToImpliedProb`: convert American odds to implied probability. -/
def americanToImpliedProb (odds : ℚ) : ℚ :=
  if odds = 0 then 0
  else if odds > 0 then 100 / (odds + 100)
  else |odds| / (|odds| + 100)

/-- The function `probToAmericanOdds`: convert probability to fair American odds. -/
def probToAmericanOdds (prob : ℚ) : ℚ :=
  if prob ≤ 0 ∨ prob ≥ 1 then 0
  else if prob ≥ 0.5 then (Js.round ((-100 * prob) / (1 - prob)) : ℤ)
  else (Js.round ((100 * (1 - prob)) / prob) : ℤ)

/-- The function `calculateExpectedValue`: expected profit per 100 wagered. -/
def calculateExpectedValue (modelProbability bookOdds : ℚ) : ℚ :=
  if bookOdds = 0 then 0
  else
    let payout := if bookOdds > 0 then bookOdds else (100 / |bookOdds|) * 100
    let winProb := modelProbability
    let loseProb := 1 - modelProbability
    let ev := winProb * payout - loseProb * 100
    (Js.round (ev * 100) : ℚ) / 100

/-- The record `BetAnalysis` without its display-only string fields
(`edgePercent`, `bookLine`, `reasons`). -/
structure BetAnalysis where
  classification : BetClassification
  edge : ℚ
  modelProbability : ℚ
  bookProbability : ℚ
  bookOdds : ℚ
  fairOdds : ℚ
  expectedValue : ℚ
  confidence : ℚ
  gamesPlayed : ℚ
  kellyFraction : ℚ
deriving Repr

/-- The CLASSIFICATION LOGIC block of `classifyBet` (the four-way
else-if chain over the prop-specific edge thresholds). -/
def classificationFor (thr : PropThresholds) (edge confidence modelProbability gamesPlayed : ℚ) :
    BetClassification :=
  if edge ≥ thr.minEdgeBest ∧ confidence ≥ MIN_CONFIDENCE_BEST ∧
      gamesPlayed ≥ thr.minGamesPlayed then .best_bet
  else if edge ≥ thr.minEdgeStrong ∧ confidence ≥ MIN_CONFIDENCE_STRONG ∧
      gamesPlayed ≥ thr.minGamesPlayed then .strong_value
  else if edge ≥ thr.minEdgeValue ∧ confidence ≥ MIN_CONFIDENCE_VALUE ∧
      gamesPlayed ≥ thr.minGamesPlayed then .value
  else if modelProbability ≥ MIN_PROB_FOR_BEST ∧ confidence ≥ MIN_CONFIDENCE_VALUE ∧
      edge > 0 then .lean
  else .none

/-- The classifier `classifyBet`. A `bookOdds` of `none` models the JavaScript `null`;
the code's `if (!bookOdds)` also treats odds of exactly `0` as absent. -/
def classifyBet (modelProbability : ℚ) (bookOdds : Option ℚ) (propLine : ℚ)
    (propType : PropType) (confidence : ℚ) (gamesPlayed : ℚ) : BetAnalysis :=
  let propThresholds := PROP_THRESHOLDS propType
  let base : BetAnalysis :=
    { classification := .none
      edge := 0
      modelProbability := modelProbability
      bookProbability := 0
      bookOdds := bookOdds.getD 0
      fairOdds := probToAmericanOdds modelProbability
      expectedValue := 0
      confidence := confidence
      gamesPlayed := gamesPlayed
      kellyFraction := 0 }
  let hasSufficientSample := gamesPlayed ≥ propThresholds.minGamesPlayed
  if bookOdds.getD 0 = 0 then
    if modelProbability ≥ MIN_PROB_FOR_LEAN ∧ confidence ≥ MIN_CONFIDENCE_VALUE ∧
        hasSufficientSample then
      { base with classification := .lean, kellyFraction := KELLY_FRACTIONS .lean }
    else base
  else
    let odds := bookOdds.getD 0
    let bookProbability := americanToImpliedProb odds
    let edge := modelProbability - bookProbability
    let expectedValue := calculateExpectedValue modelProbability odds
    let classification := classificationFor propThresholds edge confidence modelProbability gamesPlayed
    { base with
        classification := classification
        edge := edge
        bookProbability := bookProbability
        expectedValue := expectedValue
        kellyFraction := KELLY_FRACTIONS classification }

/-- The classification priority used by `sortBetsByQuality`
(smaller is a better tier). -/
def priority : BetClassification → ℕ
  | .best_bet => 0
  | .strong_value => 1
  | .value => 2
  | .lean => 3
  | .none => 4

end Bets

/-! ## Prediction engine (`src/lib/prediction-engine.ts`) -/

namespace Props

inductive PropType where
  | goalscorer
  | shots
  | assists
  | points
deriving DecidableEq, Repr

structure PlayerGameLog where
  gameId : ℕ
  gameDate : String
  goals : ℚ
  assists : ℚ
  points : ℚ
  shots : ℚ
  toi : ℚ
  ppToi : ℚ
  plusMinus : ℚ
  opponentAbbrev : String
  isHome : Bool
deriving Repr

structure PlayerStats where
  playerId : ℕ
  playerName : String
  teamAbbrev : String
  position : String
  gamesPlayed : ℚ
  seasonGoals : ℚ
  seasonAssists : ℚ
  seasonPoints : ℚ
  seasonShots : ℚ
  seasonGoalsPerGame : ℚ
  seasonAssistsPerGame : ℚ
  seasonPointsPerGame : ℚ
  seasonShotsPerGame : ℚ
  seasonPPTimePerGame : ℚ
  recentGoalsPerGame : ℚ
  recentAssistsPerGame : ℚ
  recentPointsPerGame : ℚ
  recentShotsPerGame : ℚ
  recentPPTimePerGame : ℚ
  recentGames : ℚ
  shootingPct : ℚ
deriving Repr

structure TeamDefense where
  teamAbbrev : String
  goalsAgainstPerGame : ℚ
  shotsAgainstPerGame : ℚ
  savePct : ℚ
deriving Repr

structure MatchupData where
  oppTeamAbbrev : String
  oppGoalsAgainstPerGame : ℚ
  oppGoalieSavePct : ℚ
  isHome : Bool
deriving Repr

/-- The `factors` breakdown of a prediction (for non-goal props the
`baseGoalsPerGame` slot carries that prop's base rate, as in the source). -/
structure Factors where
  baseGoalsPerGame : ℚ
  recentFormMultiplier : ℚ
  ppBoost : ℚ
  goalieAdjustment : ℚ
  homeAwayAdjustment : ℚ
  defenseAdjustment : ℚ
deriving Repr

def LEAGUE_AVG_SAVE_PCT : ℚ := 0.905
def LEAGUE_AVG_GOALS_AGAINST : ℚ := 3.0
def MIN_GAMES_FOR_PREDICTION : ℕ := 15
def RECENT_GAMES_WINDOW : ℕ := 5

/-- Minimum season per-game production to forecast a prop type at all. -/
def QUALITY_THRESHOLDS : PropType → ℚ
  | .goalscorer => 0.15
  | .shots => 1.5
  | .assists => 0.15
  | .points => 0.25

def DEFAULT_LINES : PropType → ℚ
  | .goalscorer => 0.5
  | .shots => 2.5
  | .assists => 0.5
  | .points => 0.5

def RECENT_WEIGHT : ℚ := 0.60
def SEASON_WEIGHT : ℚ := 0.40

/-- The function `calculatePlayerStats`: aggregate a game log into season and recent
per-game rates; `none` below the minimum sample size. -/
def calculatePlayerStats (playerId : ℕ) (playerName teamAbbrev position : String)
    (gameLogs : List PlayerGameLog) : Option PlayerStats :=
  if gameLogs.length < MIN_GAMES_FOR_PREDICTION then none
  else
    let gamesPlayed : ℚ := gameLogs.length
    let seasonGoals := (gameLogs.map (·.goals)).sum
    let seasonAssists := (gameLogs.map (·.assists)).sum
    let seasonPoints := (gameLogs.map (·.points)).sum
    let seasonShots := (gameLogs.map (·.shots)).sum
    let seasonPPTime := (gameLogs.map (·.ppToi)).sum
    let recentGames := gameLogs.take RECENT_GAMES_WINDOW
    let recentGoals := (recentGames.map (·.goals)).sum
    let recentAssists := (recentGames.map (·.assists)).sum
    let recentPoints := (recentGames.map (·.points)).sum
    let recentShots := (recentGames.map (·.shots)).sum
    let recentPPTime := (recentGames.map (·.ppToi)).sum
    let recentLen : ℚ := recentGames.length
    some
      { playerId := playerId
        playerName := playerName
        teamAbbrev := teamAbbrev
        position := position
        gamesPlayed := gamesPlayed
        seasonGoals := seasonGoals
        seasonAssists := seasonAssists
        seasonPoints := seasonPoints
        seasonShots := seasonShots
        seasonGoalsPerGame := seasonGoals / gamesPlayed
        seasonAssistsPerGame := seasonAssists / gamesPlayed
        seasonPointsPerGame := seasonPoints / gamesPlayed
        seasonShotsPerGame := seasonShots / gamesPlayed
        seasonPPTimePerGame := (seasonPPTime / gamesPlayed) / 60
        recentGoalsPerGame := if recentLen > 0 then recentGoals / recentLen else 0
        recentAssistsPerGame := if recentLen > 0 then recentAssists / recentLen else 0
        recentPointsPerGame := if recentLen > 0 then recentPoints / recentLen else 0
        recentShotsPerGame := if recentLen > 0 then recentShots / recentLen else 0
        recentPPTimePerGame := if recentLen > 0 then (recentPPTime / recentLen) / 60 else 0
        recentGames := recentLen
        shootingPct := if seasonShots > 0 then seasonGoals / seasonShots else 0 }

/-- Result record of `calculateExpectedGoals` (the `reasoning` strings,
which only format numbers for display, are omitted). -/
structure GoalsResult where
  lambda : ℚ
  factors : Factors
deriving Repr

/-- Result record of the shots/assists/points engines. -/
structure ExpectedResult where
  expected : ℚ
  factors : Factors
deriving Repr

/-- The function `calculateExpectedGoals`: blended base rate times five bounded
situational multipliers, floored at zero. -/
def calculateExpectedGoals (player : PlayerStats) (matchup : MatchupData) : GoalsResult :=
  let baseGoalsPerGame :=
    RECENT_WEIGHT * player.recentGoalsPerGame + SEASON_WEIGHT * player.seasonGoalsPerGame
  let recentFormMultiplier :=
    if player.seasonShotsPerGame > 0 ∧ player.recentShotsPerGame > 0 then
      let shotRatio := player.recentShotsPerGame / player.seasonShotsPerGame
      0.7 + 0.3 * min 1.3 (max 0.7 shotRatio)
    else 1.0
  let avgPPTime := (player.recentPPTimePerGame + player.seasonPPTimePerGame) / 2
  let ppBoost : ℚ := if avgPPTime ≥ 4.0 then 1.20 else if avgPPTime ≥ 2.5 then 1.10 else 1.0
  let goalieDiff := LEAGUE_AVG_SAVE_PCT - matchup.oppGoalieSavePct
  let goalieAdjustment := max 0.80 (min 1.25 (1 + goalieDiff * 3))
  let homeAwayAdjustment : ℚ := if matchup.isHome then 1.05 else 0.95
  let defenseAdjustment :=
    if matchup.oppGoalsAgainstPerGame > 0 then
      max 0.85 (min 1.20 (matchup.oppGoalsAgainstPerGame / LEAGUE_AVG_GOALS_AGAINST))
    else 1.0
  let lambda := baseGoalsPerGame * recentFormMultiplier * ppBoost * goalieAdjustment *
    homeAwayAdjustment * defenseAdjustment
  { lambda := max 0 lambda
    factors :=
      { baseGoalsPerGame := baseGoalsPerGame
        recentFormMultiplier := recentFormMultiplier
        ppBoost := ppBoost
        goalieAdjustment := goalieAdjustment
        homeAwayAdjustment := homeAwayAdjustment
        defenseAdjustment := defenseAdjustment } }

/-- The function `calculateExpectedShots`. -/
def calculateExpectedShots (player : PlayerStats) (matchup : MatchupData) : ExpectedResult :=
  let baseShotsPerGame :=
    RECENT_WEIGHT * player.recentShotsPerGame + SEASON_WEIGHT * player.seasonShotsPerGame
  let recentFormMultiplier :=
    if player.seasonShotsPerGame > 0 ∧ player.recentShotsPerGame > 0 then
      let shotTrend := player.recentShotsPerGame / player.seasonShotsPerGame
      0.8 + 0.2 * min 1.2 (max 0.8 shotTrend)
    else 1.0
  let avgPPTime := (player.recentPPTimePerGame + player.seasonPPTimePerGame) / 2
  let ppBoost : ℚ := if avgPPTime ≥ 4.0 then 1.15 else if avgPPTime ≥ 2.5 then 1.08 else 1.0
  let goalieAdjustment : ℚ := 1.0
  let homeAwayAdjustment : ℚ := if matchup.isHome then 1.03 else 0.97
  let defenseAdjustment : ℚ :=
    if matchup.oppGoalsAgainstPerGame > 3.3 then 1.05
    else if matchup.oppGoalsAgainstPerGame < 2.7 then 0.95
    else 1.0
  let expected := baseShotsPerGame * recentFormMultiplier * ppBoost *
    homeAwayAdjustment * defenseAdjustment
  { expected := max 0 expected
    factors :=
      { baseGoalsPerGame := baseShotsPerGame
        recentFormMultiplier := recentFormMultiplier
        ppBoost := ppBoost
        goalieAdjustment := goalieAdjustment
        homeAwayAdjustment := homeAwayAdjustment
        defenseAdjustment := defenseAdjustment } }

/-- The function `calculateExpectedAssists`. -/
def calculateExpectedAssists (player : PlayerStats) (matchup : MatchupData) : ExpectedResult :=
  let baseAssistsPerGame :=
    RECENT_WEIGHT * player.recentAssistsPerGame + SEASON_WEIGHT * player.seasonAssistsPerGame
  let recentFormMultiplier :=
    if player.seasonPointsPerGame > 0 ∧ player.recentPointsPerGame > 0 then
      let pointsTrend := player.recentPointsPerGame / player.seasonPointsPerGame
      0.75 + 0.25 * min 1.25 (max 0.75 pointsTrend)
    else 1.0
  let avgPPTime := (player.recentPPTimePerGame + player.seasonPPTimePerGame) / 2
  let ppBoost : ℚ := if avgPPTime ≥ 4.0 then 1.25 else if avgPPTime ≥ 2.5 then 1.12 else 1.0
  let goalieDiff := LEAGUE_AVG_SAVE_PCT - matchup.oppGoalieSavePct
  let goalieAdjustment := max 0.85 (min 1.20 (1 + goalieDiff * 2))
  let homeAwayAdjustment : ℚ := if matchup.isHome then 1.04 else 0.96
  let defenseAdjustment : ℚ :=
    if matchup.oppGoalsAgainstPerGame > 3.3 then 1.15
    else if matchup.oppGoalsAgainstPerGame < 2.7 then 0.88
    else 1.0
  let expected := baseAssistsPerGame * recentFormMultiplier * ppBoost * goalieAdjustment *
    homeAwayAdjustment * defenseAdjustment
  { expected := max 0 expected
    factors :=
      { baseGoalsPerGame := baseAssistsPerGame
        recentFormMultiplier := recentFormMultiplier
        ppBoost := ppBoost
        goalieAdjustment := goalieAdjustment
        homeAwayAdjustment := homeAwayAdjustment
        defenseAdjustment := defenseAdjustment } }

/-- The function `calculateExpectedPoints`. -/
def calculateExpectedPoints (player : PlayerStats) (matchup : MatchupData) : ExpectedResult :=
  let basePointsPerGame :=
    RECENT_WEIGHT * player.recentPointsPerGame + SEASON_WEIGHT * player.seasonPointsPerGame
  let recentFormMultiplier :=
    if player.seasonPointsPerGame > 0 ∧ player.recentPointsPerGame > 0 then
      let pointsTrend := player.recentPointsPerGame / player.seasonPointsPerGame
      0.75 + 0.25 * min 1.25 (max 0.75 pointsTrend)
    else 1.0
  let avgPPTime := (player.recentPPTimePerGame + player.seasonPPTimePerGame) / 2
  let ppBoost : ℚ := if avgPPTime ≥ 4.0 then 1.22 else if avgPPTime ≥ 2.5 then 1.11 else 1.0
  let goalieDiff := LEAGUE_AVG_SAVE_PCT - matchup.oppGoalieSavePct
  let goalieAdjustment := max 0.85 (min 1.20 (1 + goalieDiff * 2.5))
  let homeAwayAdjustment : ℚ := if matchup.isHome then 1.05 else 0.95
  let defenseAdjustment : ℚ :=
    if matchup.oppGoalsAgainstPerGame > 3.3 then 1.18
    else if matchup.oppGoalsAgainstPerGame < 2.7 then 0.85
    else 1.0
  let expected := basePointsPerGame * recentFormMultiplier * ppBoost * goalieAdjustment *
    homeAwayAdjustment * defenseAdjustment
  { expected := max 0 expected
    factors :=
      { baseGoalsPerGame := basePointsPerGame
        recentFormMultiplier := recentFormMultiplier
        ppBoost := ppBoost
        goalieAdjustment := goalieAdjustment
        homeAwayAdjustment := homeAwayAdjustment
        defenseAdjustment := defenseAdjustment } }

/-- The function `goalProbability`: Poisson anytime-scorer probability `1 - e^(-λ)`. -/
noncomputable def goalProbability (lambda : ℝ) : ℝ := 1 - Real.exp (-lambda)

/-- The Abramowitz–Stegun `normalCDF` approximation used by the source. -/
noncomputable def normalCDF (z : ℝ) : ℝ :=
  let a1 : ℝ := 0.254829592
  let a2 : ℝ := -0.284496736
  let a3 : ℝ := 1.421413741
  let a4 : ℝ := -1.453152027
  let a5 : ℝ := 1.061405429
  let p : ℝ := 0.3275911
  let sign : ℝ := if z < 0 then -1 else 1
  let z' := |z| / Real.sqrt 2
  let t := 1.0 / (1.0 + p * z')
  let y := 1.0 - (((((a5 * t + a4) * t) + a3) * t + a2) * t + a1) * t * Real.exp (-z' * z')
  0.5 * (1.0 + sign * y)

/-- The source's loop-based `factorial`. -/
def factorial : ℕ → ℕ
  | 0 => 1
  | 1 => 1
  | n + 2 => factorial (n + 1) * (n + 2)

open Classical in
/-- The function `calculateProbability`: normal approximation for shots, Poisson for the
count props (`1 - e^(-λ)` at the anytime line `0.5`). -/
noncomputable def calculateProbability (expected line : ℚ) (propType : PropType) : ℝ :=
  if propType = PropType.shots then
    let stdDev : ℝ := Real.sqrt (expected : ℚ) * 0.8
    if stdDev = 0 then (if (expected : ℚ) > line then 0.99 else 0.01)
    else
      let z := ((line : ℚ) - (expected : ℚ)) / stdDev
      let prob := 1 - normalCDF z
      max 0.01 (min 0.99 prob)
  else
    if line = 0.5 then 1 - Real.exp (-(expected : ℚ))
    else
      let targetK : ℤ := ⌊line⌋
      let cumulativeProb : ℝ :=
        if targetK < 0 then 0
        else (Finset.range (targetK.toNat + 1)).sum
          (fun k => ((expected : ℚ) : ℝ) ^ k * Real.exp (-(expected : ℚ)) / (factorial k : ℝ))
      max 0.01 (min 0.99 (1 - cumulativeProb))

/-- The season per-game production measure a prop type is gated on
(the `switch (propType)` block shared by the quality filter and
`calculateConfidence`). -/
def productionForProp (propType : PropType) (player : PlayerStats) : ℚ :=
  match propType with
  | .goalscorer => player.seasonGoalsPerGame
  | .shots => player.seasonShotsPerGame
  | .assists => player.seasonAssistsPerGame
  | .points => player.seasonPointsPerGame

/-- The function `calculateConfidence`: base 0.50 plus bonuses for sample size,
production level, shot volume and recent-form consistency, capped at 0.95. -/
def calculateConfidence (player : PlayerStats) (propType : PropType) : ℚ :=
  let c0 : ℚ := 0.50
  let c1 :=
    if player.gamesPlayed ≥ 40 then c0 + 0.15
    else if player.gamesPlayed ≥ 25 then c0 + 0.10
    else if player.gamesPlayed ≥ (MIN_GAMES_FOR_PREDICTION : ℚ) then c0 + 0.05
    else c0
  let threshold := QUALITY_THRESHOLDS propType
  let production := productionForProp propType player
  let c2 :=
    if production ≥ threshold * 3 then c1 + 0.15
    else if production ≥ threshold * 2 then c1 + 0.10
    else if production ≥ threshold then c1 + 0.05
    else c1
  let c3 :=
    if player.seasonShotsPerGame ≥ 4.0 then c2 + 0.10
    else if player.seasonShotsPerGame ≥ 3.0 then c2 + 0.05
    else c2
  let c4 :=
    if player.recentGames ≥ 5 ∧ |player.recentGoalsPerGame - player.seasonGoalsPerGame| < 0.1 then
      c3 + 0.05
    else c3
  min 0.95 c4

/-- The record `PredictionResult` (reasoning strings omitted). -/
structure PredictionResult where
  playerId : ℕ
  playerName : String
  teamAbbrev : String
  opponent : String
  propType : PropType
  expectedGoals : ℚ
  expectedShots : ℚ
  expectedAssists : ℚ
  expectedPoints : ℚ
  expectedValue : ℚ
  probability : ℝ
  confidence : ℚ
  gamesPlayed : ℚ
  factors : Factors

/-- The function `predictPlayerProp`, with the two remote fetches (`fetchPlayerGameLogs`
and `fetchTeamDefense`) supplied as the `gameLogs` and `oppDefense`
arguments. -/
noncomputable def predictPlayerProp (playerId : ℕ)
    (playerName teamAbbrev position opponentAbbrev : String) (isHome : Bool)
    (propType : PropType) (gameLogs : List PlayerGameLog)
    (oppDefense : Option TeamDefense) : Option PredictionResult :=
  match calculatePlayerStats playerId playerName teamAbbrev position gameLogs with
  | none => none
  | some playerStats =>
    let threshold := QUALITY_THRESHOLDS propType
    let production := productionForProp propType playerStats
    if production < threshold then none
    else
      let matchup : MatchupData :=
        { oppTeamAbbrev := opponentAbbrev
          oppGoalsAgainstPerGame :=
            Js.orQ (oppDefense.map (·.goalsAgainstPerGame)) LEAGUE_AVG_GOALS_AGAINST
          oppGoalieSavePct := Js.orQ (oppDefense.map (·.savePct)) LEAGUE_AVG_SAVE_PCT
          isHome := isHome }
      let goalsResult := calculateExpectedGoals playerStats matchup
      let shotsResult := calculateExpectedShots playerStats matchup
      let assistsResult := calculateExpectedAssists playerStats matchup
      let pointsResult := calculateExpectedPoints playerStats matchup
      let relevant : ExpectedResult :=
        match propType with
        | .goalscorer => { expected := goalsResult.lambda, factors := goalsResult.factors }
        | .shots => shotsResult
        | .assists => assistsResult
        | .points => pointsResult
      let line := DEFAULT_LINES propType
      let probability := calculateProbability relevant.expected line propType
      let confidence := calculateConfidence playerStats propType
      some
        { playerId := playerId
          playerName := playerName
          teamAbbrev := teamAbbrev
          opponent := opponentAbbrev
          propType := propType
          expectedGoals := goalsResult.lambda
          expectedShots := shotsResult.expected
          expectedAssists := assistsResult.expected
          expectedPoints := pointsResult.expected
          expectedValue := relevant.expected
          probability := probability
          confidence := confidence
          gamesPlayed := playerStats.gamesPlayed
          factors := relevant.factors }

end Props

/-! ## Injury service (`src/lib/injury-service.ts`) -/

namespace Injury

/-- JavaScript `\s` membership, on ASCII input. -/
def isJsSpace : Char → Bool
  | ' ' | '\t' | '\n' | '\r' | '\x0b' | '\x0c' => true
  | _ => false

/-- Trim the leading and trailing whitespace runs of a character list
(JavaScript `trim`). -/
def jsTrim (l : List Char) : List Char :=
  ((l.dropWhile isJsSpace).reverse.dropWhile isJsSpace).reverse

/-- One alternative of the suffix regex `\s+(jr|sr|ii|iii|iv)\.?$` (the
trailing dot has already been removed by the caller): succeeds only when the
list ends with the suffix preceded by at least one whitespace character,
and then also removes that whitespace run. -/
def attemptSuffix (t : List Char) (suf : List Char) : Option (List Char) :=
  let r := t.reverse
  if r.take suf.length = suf.reverse then
    match r.drop suf.length with
    | c :: rest =>
      if isJsSpace c then some (((c :: rest).dropWhile isJsSpace).reverse) else none
    | [] => none
  else none

/-- The generation-suffix removal `replace(/\s+(jr|sr|ii|iii|iv)\.?$/i, "")`
of `normalizePlayerName` (input is already lower-case). -/
def stripGenSuffix (s : List Char) : List Char :=
  let t := if s.getLast? = some '.' then s.dropLast else s
  ((((attemptSuffix t (("jr").toList)).orElse
      (fun _ => attemptSuffix t (("sr").toList))).orElse
      (fun _ => attemptSuffix t (("ii").toList))).orElse
      (fun _ => attemptSuffix t (("iii").toList))).orElse
      (fun _ => attemptSuffix t (("iv").toList)) |>.getD s

/-- Keep lower-case letters, whitespace and hyphens
(the regex `replace(/[^a-z\s-]/g, "")`). -/
def keepNameChar (c : Char) : Bool :=
  (decide ('a' ≤ c) && decide (c ≤ 'z')) || isJsSpace c || decide (c = '-')

/-- The function `normalizePlayerName`. The JavaScript original first applies NFD
normalization and strips combining marks (U+0300–U+036F); both are the
identity on the ASCII names this embedding works with. -/
def normalizePlayerName (name : String) : String :=
  let lowered := name.toList.map Char.toLower
  let noSuffix := stripGenSuffix lowered
  String.mk (jsTrim (noSuffix.filter keepNameChar))

inductive InjuryStatus where
  | OUT
  | DAY_TO_DAY
  | IR
  | LTIR
  | SUSPENDED
  | QUESTIONABLE
deriving DecidableEq, Repr

structure PlayerInjury where
  playerId : String
  playerName : String
  team : String
  teamAbbrev : String
  position : String
  status : InjuryStatus
  injuryType : String
  description : String
  expectedReturn : Option String
  gamesOut : Option ℚ
  source : String
  updatedAt : String
deriving DecidableEq, Repr

inductive EspnStatus where
  | injured
  | healthy
  | unknown
deriving DecidableEq, Repr

inductive OddsStatus where
  | has_props
  | no_props
  | unknown
deriving DecidableEq, Repr

inductive Verdict where
  | OUT
  | PLAYING
  | UNCERTAIN
deriving DecidableEq, Repr

structure PlayerAvailability where
  playerName : String
  normalizedName : String
  team : String
  espnStatus : EspnStatus
  oddsStatus : OddsStatus
  finalVerdict : Verdict
  sourcesAgree : ℕ
  injuryDetails : Option PlayerInjury
  reasoning : String
deriving DecidableEq, Repr

/-- The function `validatePlayerAvailability`: 2-source reconciliation of one player's
availability. The ESPN injured set and the props set are modelled as lists
of normalized names. -/
def validatePlayerAvailability (normalized : String)
    (espnInjured playersWithProps : List String)
    (injuryDetails : Option PlayerInjury) : PlayerAvailability :=
  let espnStatus : EspnStatus :=
    if normalized ∈ espnInjured then .injured else .healthy
  let oddsStatus : OddsStatus :=
    if playersWithProps.length > 0 then
      (if normalized ∈ playersWithProps then .has_props else .no_props)
    else .unknown
  let verdictAgree : Verdict × ℕ × String :=
    if espnStatus = EspnStatus.injured then
      if oddsStatus = OddsStatus.has_props then
        (Verdict.UNCERTAIN, 0, "ESPN says injured but has sportsbook props - game-time decision?")
      else
        (Verdict.OUT, if oddsStatus = OddsStatus.no_props then 2 else 1,
          ("ESPN: injured") ++ (if oddsStatus = OddsStatus.no_props then (", no props") else ("")))
    else
      if oddsStatus = OddsStatus.has_props then
        (Verdict.PLAYING, 2, "ESPN: healthy, has props")
      else
        (Verdict.PLAYING, 1,
          ("ESPN: healthy") ++ (if oddsStatus = OddsStatus.no_props then (" (no props listed)") else ("")))
  { playerName := Js.orS (injuryDetails.map (·.playerName)) normalized
    normalizedName := normalized
    team := Js.orS (injuryDetails.map (·.team)) ("")
    espnStatus := espnStatus
    oddsStatus := oddsStatus
    finalVerdict := verdictAgree.1
    sourcesAgree := verdictAgree.2.1
    injuryDetails := injuryDetails
    reasoning := verdictAgree.2.2 }

/-- STEP 2 of `refreshInjuryCache`: collect the normalized names of every
player whose ESPN status counts as unavailable. -/
def espnInjuredFrom (espnInjuries : List (String × List PlayerInjury)) : List String :=
  espnInjuries.foldl
    (fun acc p =>
      p.2.foldl
        (fun acc2 injury =>
          if injury.status = InjuryStatus.OUT ∨ injury.status = InjuryStatus.IR ∨
              injury.status = InjuryStatus.LTIR ∨ injury.status = InjuryStatus.DAY_TO_DAY ∨
              injury.status = InjuryStatus.SUSPENDED then
            Js.insertSet acc2 (normalizePlayerName injury.playerName)
          else acc2)
        acc)
    []

/-- The injury-details lookup in STEP 3 of `refreshInjuryCache`. -/
def findInjuryDetails (espnInjuries : List (String × List PlayerInjury))
    (playerName : String) : Option PlayerInjury :=
  espnInjuries.findSome?
    (fun p => p.2.find? (fun i => normalizePlayerName i.playerName == playerName))

/-- The accumulating state of the STEP 3 validation loop of
`refreshInjuryCache`. -/
structure ValidationState where
  playerAvailability : List (String × PlayerAvailability)
  allInjuredNames : List String
  agreedOut : ℕ
  agreedPlaying : ℕ
  uncertain : ℕ
deriving Repr

/-- One iteration of the STEP 3 loop: validate a player and file the
verdict (UNCERTAIN is conservatively added to the injured-name set). -/
def validateStep (espnInjuries : List (String × List PlayerInjury))
    (espnInjured playersWithProps : List String)
    (st : ValidationState) (playerName : String) : ValidationState :=
  let injuryDetails := findInjuryDetails espnInjuries playerName
  let availability :=
    validatePlayerAvailability playerName espnInjured playersWithProps injuryDetails
  let st :=
    { st with playerAvailability := Js.setA st.playerAvailability playerName availability }
  if availability.finalVerdict = Verdict.OUT then
    { st with allInjuredNames := Js.insertSet st.allInjuredNames playerName
              agreedOut := st.agreedOut + 1 }
  else if availability.finalVerdict = Verdict.PLAYING then
    { st with agreedPlaying := st.agreedPlaying + 1 }
  else
    { st with allInjuredNames := Js.insertSet st.allInjuredNames playerName
              uncertain := st.uncertain + 1 }

/-- STEPS 2–3 of `refreshInjuryCache` as a pure function of the fetched
ESPN injuries and the props set. -/
def refreshValidation (espnInjuries : List (String × List PlayerInjury))
    (playersWithProps : List String) : ValidationState :=
  let espnInjured := espnInjuredFrom espnInjuries
  espnInjured.foldl (validateStep espnInjuries espnInjured playersWithProps)
    { playerAvailability := [], allInjuredNames := [], agreedOut := 0, agreedPlaying := 0,
      uncertain := 0 }

end Injury

namespace Injury

/-- The `POSITION_VALUE` lookup table (`undefined` off the listed keys). -/
def POSITION_VALUE (position : String) : Option ℚ :=
  if position = "G" then some 1.5
  else if position = "D" then some 1.2
  else if position = "C" then some 1.1
  else if position = "LW" then some 1.0
  else if position = "RW" then some 1.0
  else if position = "F" then some 1.05
  else none

/-- The `MAX_WIN_PROB_IMPACT` lookup table. -/
def MAX_WIN_PROB_IMPACT (position : String) : Option ℚ :=
  if position = "G" then some 0.1
  else if position = "D" then some 0.07
  else if position = "C" then some 0.06
  else if position = "LW" then some 0.05
  else if position = "RW" then some 0.05
  else if position = "F" then some 0.05
  else none

/-- The `TIER_THRESHOLDS` table (keys 1–5). -/
def TIER_THRESHOLDS : ℕ → ℚ
  | 1 => 0.7
  | 2 => 0.5
  | 3 => 0.35
  | 4 => 0.2
  | _ => 0.0

structure StarConcentrationMultipliers where
  extreme : ℚ
  high : ℚ
  medium : ℚ
  low : ℚ
deriving Repr

def STAR_CONCENTRATION_MULTIPLIERS : StarConcentrationMultipliers :=
  { extreme := 1.4, high := 1.25, medium := 1.0, low := 0.8 }

/-- The `LINEMATE_DROP_BY_TIER` table (keys 1–5; only tiers 1–3 are ever looked up). -/
def LINEMATE_DROP_BY_TIER : ℕ → ℚ
  | 1 => 0.65
  | 2 => 0.75
  | 3 => 0.85
  | 4 => 0.95
  | _ => 1.0

/-- The function `calculateCompoundingMultiplier`: step function in the count of
simultaneous injuries, scaled up above 30 man-games lost, capped at 2.0. -/
def calculateCompoundingMultiplier (injuryCount : ℕ) (manGamesLost : ℚ) : ℚ :=
  let m0 : ℚ := 1.0
  let m1 := if injuryCount ≥ 2 then (0.15 : ℚ) else m0
  let m2 := if injuryCount ≥ 3 then (0.3 : ℚ) else m1
  let m3 := if injuryCount ≥ 4 then (0.5 : ℚ) else m2
  let m4 := if injuryCount ≥ 5 then (0.75 : ℚ) else m3
  let m5 := if manGamesLost > 30 then m4 * 1.1 else m4
  min m5 2.0

/-- An NHL club-stats roster record, with exactly the fields the injury
service reads (a field of the form `x?.default` is modelled by the inner
string). Missing fields are `none`. -/
structure RosterPlayer where
  playerId : Js.Id'
  firstName : Option String
  lastName : Option String
  positionCode : Option String
  gamesPlayed : Option ℚ
  points : Option ℚ
  goals : Option ℚ
  avgToi : Option ℚ
  powerPlayPoints : Option ℚ
  savePctg : Option ℚ
  savePercentage : Option ℚ
  team : Option String
deriving Repr

/-- The aggregate team stats computed by `fetchTeamPlayerStats`. -/
structure TeamStats where
  points : Option ℚ
  goals : Option ℚ
deriving Repr

inductive RiskLevel where
  | low
  | medium
  | high
  | extreme
deriving DecidableEq, Repr

/-- The TypeScript string value of a risk level. -/
def riskLevelStr : RiskLevel → String
  | .low => "low"
  | .medium => "medium"
  | .high => "high"
  | .extreme => "extreme"

structure StarConcentration where
  tier1Count : ℕ
  tier2Count : ℕ
  topPlayerShare : ℚ
  secondPlayerShare : ℚ
  hasSecondaryStar : Bool
  concentrationMultiplier : ℚ
  riskLevel : RiskLevel
  description : String
deriving Repr

/-- The function `calculateStarConcentration`: how concentrated team scoring is among
the top contributors. -/
def calculateStarConcentration (players : List RosterPlayer) (teamStats : TeamStats) :
    StarConcentration :=
  if players.isEmpty then
    { tier1Count := 0, tier2Count := 0, topPlayerShare := 0, secondPlayerShare := 0,
      hasSecondaryStar := false, concentrationMultiplier := 1.0, riskLevel := .low,
      description := "No player data available" }
  else
    let sortedByPoints :=
      players.mergeSort (fun a b => decide ((b.points.getD 0) ≤ (a.points.getD 0)))
    let pointsSum := (sortedByPoints.map (fun p => p.points.getD 0)).sum
    let totalTeamPoints := Js.orQ teamStats.points (if pointsSum = 0 then 1 else pointsSum)
    let topPlayer := sortedByPoints.head?
    let secondPlayer := if sortedByPoints.length > 1 then sortedByPoints.get? 1 else none
    let topPlayerShare := ((topPlayer.bind (·.points)).getD 0) / totalTeamPoints
    let secondPlayerShare : ℚ :=
      match secondPlayer with
      | some p => (p.points.getD 0) / totalTeamPoints
      | none => 0
    let counts := sortedByPoints.foldl
      (fun (acc : ℕ × ℕ) p =>
        let share := (p.points.getD 0) / totalTeamPoints
        if share ≥ 0.2 then (acc.1 + 1, acc.2)
        else if share ≥ 0.15 then (acc.1, acc.2 + 1)
        else acc)
      (0, 0)
    let tier1Count := counts.1
    let tier2Count := counts.2
    let hasSecondaryStar : Bool := decide (secondPlayerShare ≥ 0.15)
    if tier1Count = 1 ∧ hasSecondaryStar = false then
      { tier1Count := tier1Count, tier2Count := tier2Count, topPlayerShare := topPlayerShare,
        secondPlayerShare := secondPlayerShare, hasSecondaryStar := hasSecondaryStar,
        concentrationMultiplier := STAR_CONCENTRATION_MULTIPLIERS.extreme,
        riskLevel := .extreme,
        description := ("Single star (") ++ toString (Js.round (topPlayerShare * 100)) ++
          ("% of points), no backup") }
    else if tier1Count = 1 ∧ hasSecondaryStar = true then
      { tier1Count := tier1Count, tier2Count := tier2Count, topPlayerShare := topPlayerShare,
        secondPlayerShare := secondPlayerShare, hasSecondaryStar := hasSecondaryStar,
        concentrationMultiplier := STAR_CONCENTRATION_MULTIPLIERS.high,
        riskLevel := .high,
        description := ("Single star with decent #2 (") ++
          toString (Js.round (secondPlayerShare * 100)) ++ ("%)") }
    else if tier1Count ≥ 2 then
      { tier1Count := tier1Count, tier2Count := tier2Count, topPlayerShare := topPlayerShare,
        secondPlayerShare := secondPlayerShare, hasSecondaryStar := hasSecondaryStar,
        concentrationMultiplier := STAR_CONCENTRATION_MULTIPLIERS.medium,
        riskLevel := .medium,
        description := ("Multiple stars (") ++ toString tier1Count ++ (" tier 1, ") ++
          toString tier2Count ++ (" tier 2 contributors)") }
    else
      { tier1Count := tier1Count, tier2Count := tier2Count, topPlayerShare := topPlayerShare,
        secondPlayerShare := secondPlayerShare, hasSecondaryStar := hasSecondaryStar,
        concentrationMultiplier := STAR_CONCENTRATION_MULTIPLIERS.low,
        riskLevel := .low,
        description := ("Balanced scoring (") ++ toString (tier1Count + tier2Count) ++
          (" contributors)") }

structure PlayerImportance where
  playerId : Js.Id'
  playerName : String
  team : String
  position : String
  tier : ℕ
  importanceScore : ℚ
  pointsShare : ℚ
  toiRank : ℕ
  ppTimeShare : ℚ
  pkTimeShare : ℚ
  goalsAboveExpected : ℚ
  winProbImpact : ℚ
  ppImpact : ℚ
  pkImpact : ℚ
deriving Repr

/-- The tier chain over `TIER_THRESHOLDS` shared by both importance
calculations. -/
def tierFor (importanceScore : ℚ) : ℕ :=
  if importanceScore ≥ TIER_THRESHOLDS 1 then 1
  else if importanceScore ≥ TIER_THRESHOLDS 2 then 2
  else if importanceScore ≥ TIER_THRESHOLDS 3 then 3
  else if importanceScore ≥ TIER_THRESHOLDS 4 then 4
  else 5

/-- The function `calculateGoalieImportance`. -/
def calculateGoalieImportance (playerStats : RosterPlayer) (goalies : List RosterPlayer) :
    PlayerImportance :=
  let firstName := playerStats.firstName.getD ("")
  let lastName := playerStats.lastName.getD ("")
  let playerName := (firstName ++ (" ") ++ lastName).trim
  let sortedGoalies :=
    goalies.mergeSort (fun a b => decide ((b.gamesPlayed.getD 0) ≤ (a.gamesPlayed.getD 0)))
  let toiRank :=
    match sortedGoalies.findIdx? (fun g => Js.idEq g.playerId playerStats.playerId) with
    | some i => i + 1
    | none => 0
  let savePct := Js.orQ playerStats.savePctg (Js.orQ playerStats.savePercentage 0.905)
  let savePctAboveAvg := savePct - 0.905
  let isStarter := toiRank = 1
  let gamesPlayed := Js.orQ playerStats.gamesPlayed 1
  let s0 : ℚ := 0.5
  let s1 := if isStarter then s0 + 0.3 else s0
  let s2 := if savePctAboveAvg > 0.01 then s1 + 0.2 else s1
  let s3 := if gamesPlayed > 30 then s2 + 0.1 else s2
  let importanceScore := min 1.0 s3
  let maxImpact := (MAX_WIN_PROB_IMPACT ("G")).getD 0
  let winProbImpact := -(importanceScore * maxImpact * ((POSITION_VALUE ("G")).getD 0))
  { playerId := if Js.idTruthy playerStats.playerId then playerStats.playerId else Js.Id'.str ("")
    playerName := playerName
    team := playerStats.team.getD ("")
    position := "G"
    tier := tierFor importanceScore
    importanceScore := importanceScore
    pointsShare := 0
    toiRank := toiRank
    ppTimeShare := 0
    pkTimeShare := 0
    goalsAboveExpected := savePctAboveAvg * gamesPlayed * 30
    winProbImpact := winProbImpact
    ppImpact := 0
    pkImpact := winProbImpact * 0.3 }

/-- The function `calculatePlayerImportance` (skaters). -/
def calculatePlayerImportance (playerStats : RosterPlayer) (teamStats : TeamStats)
    (players : List RosterPlayer) : PlayerImportance :=
  let firstName := playerStats.firstName.getD ("")
  let lastName := playerStats.lastName.getD ("")
  let playerName := (firstName ++ (" ") ++ lastName).trim
  let position := Js.orS playerStats.positionCode ("F")
  let playersPointsSum := (players.map (fun p => p.points.getD 0)).sum
  let totalTeamPoints :=
    Js.orQ teamStats.points (if playersPointsSum = 0 then 1 else playersPointsSum)
  let playerPoints := playerStats.points.getD 0
  let pointsShare := if totalTeamPoints > 0 then playerPoints / totalTeamPoints else 0
  let sortedByToi :=
    players.mergeSort (fun a b => decide ((b.avgToi.getD 0) ≤ (a.avgToi.getD 0)))
  let toiRank :=
    match sortedByToi.findIdx? (fun p => Js.idEq p.playerId playerStats.playerId) with
    | some i => i + 1
    | none => 0
  let ppTimeShare : ℚ :=
    match playerStats.powerPlayPoints with
    | some ppp =>
      if ppp = 0 then 0.1 else (ppp / (if playerPoints = 0 then 1 else playerPoints)) * 0.3
    | none => 0.1
  let pkTimeShare : ℚ := if position = "D" ∨ position = "C" then 0.15 else 0.05
  let gamesPlayed := Js.orQ playerStats.gamesPlayed 1
  let goalsPerGame := (playerStats.goals.getD 0) / gamesPlayed
  let expectedGoalsPerGame : ℚ := 0.15
  let goalsAboveExpected := (goalsPerGame - expectedGoalsPerGame) * gamesPlayed
  let s0 := pointsShare * 2
  let s1 := if toiRank ≤ 6 then s0 + 0.15 else s0
  let s2 := if position = "C" then s1 + 0.05 else s1
  let s3 := if position = "D" then s2 + 0.1 else s2
  let importanceScore := min 1.0 s3
  let positionValue := Js.orQ (POSITION_VALUE position) 1.0
  let maxImpact := Js.orQ (MAX_WIN_PROB_IMPACT position) 0.05
  let winProbImpact := -(importanceScore * maxImpact * positionValue)
  let ppImpact := -(ppTimeShare * importanceScore * 0.1)
  let pkImpact := -(pkTimeShare * importanceScore * 0.05)
  { playerId := if Js.idTruthy playerStats.playerId then playerStats.playerId else Js.Id'.str ("")
    playerName := playerName
    team := playerStats.team.getD ("")
    position := position
    tier := tierFor importanceScore
    importanceScore := importanceScore
    pointsShare := pointsShare
    toiRank := toiRank
    ppTimeShare := ppTimeShare
    pkTimeShare := pkTimeShare
    goalsAboveExpected := goalsAboveExpected
    winProbImpact := winProbImpact
    ppImpact := ppImpact
    pkImpact := pkImpact }

end Injury

namespace Injury

inductive GoalieSituation where
  | starter
  | backup
  | emergency
  | unknown
deriving DecidableEq, Repr

structure TeamInjuryImpact where
  teamAbbrev : String
  injuries : List PlayerInjury
  totalWinProbAdjustment : ℚ
  powerPlayAdjustment : ℚ
  penaltyKillAdjustment : ℚ
  expectedGoalsForAdjustment : ℚ
  expectedGoalsAgainstAdjustment : ℚ
  goalieSituation : GoalieSituation
  isBackupGoalieElite : Bool
  affectedLinemates : List (String × ℚ)
  linePromotions : ℚ
  defenseDisruption : ℚ
  manGamesLost : ℚ
  injuryCount : ℕ
  compoundingMultiplier : ℚ
  starConcentration : StarConcentration
  starPlayersOut : List String
  summary : String
deriving Repr

/-- The placeholder record built for an injured goalie who is absent from
the fetched roster stats. -/
def placeholderGoalie (injury : PlayerInjury) (teamAbbrev : String) : RosterPlayer :=
  { playerId := Js.Id'.str injury.playerId
    firstName := some ((injury.playerName.splitOn (" ")).headD (""))
    lastName := some (String.intercalate (" ") ((injury.playerName.splitOn (" ")).tail))
    positionCode := none
    gamesPlayed := some 30
    points := none
    goals := none
    avgToi := none
    powerPlayPoints := none
    savePctg := some 0.91
    savePercentage := none
    team := some teamAbbrev }

/-- The placeholder record built for an injured skater who is absent from
the fetched roster stats. -/
def placeholderSkater (injury : PlayerInjury) (teamAbbrev : String) : RosterPlayer :=
  { playerId := Js.Id'.str injury.playerId
    firstName := some ((injury.playerName.splitOn (" ")).headD (""))
    lastName := some (String.intercalate (" ") ((injury.playerName.splitOn (" ")).tail))
    positionCode := some injury.position
    gamesPlayed := some 40
    points := some 20
    goals := none
    avgToi := some 900
    powerPlayPoints := none
    savePctg := none
    savePercentage := none
    team := some teamAbbrev }

/-- The tail of the `calculateTeamImpact` loop body shared by the goalie
and skater branches: accumulate the importance impacts, record star
players, update affected linemates, count man-games lost. -/
def applyImportance (players : List RosterPlayer) (impact : TeamInjuryImpact)
    (injury : PlayerInjury) (importance : PlayerImportance)
    (playerStats : Option RosterPlayer) : TeamInjuryImpact :=
  let impact :=
    { impact with
        totalWinProbAdjustment := impact.totalWinProbAdjustment + importance.winProbImpact
        powerPlayAdjustment := impact.powerPlayAdjustment + importance.ppImpact
        penaltyKillAdjustment := impact.penaltyKillAdjustment + importance.pkImpact }
  let impact :=
    if importance.tier ≤ 2 then
      { impact with starPlayersOut := impact.starPlayersOut ++
          [injury.playerName ++ (" (T") ++ toString importance.tier ++ (")")] }
    else impact
  let impact : TeamInjuryImpact :=
    match playerStats with
    | some ps =>
      if importance.tier ≤ 3 ∧ (ps.avgToi.getD 0) ≠ 0 then
        let linemateDropRate := LINEMATE_DROP_BY_TIER importance.tier
        let linemates : List RosterPlayer :=
          ((players.filter (fun p =>
              !(Js.idEq p.playerId ps.playerId) && decide ((p.avgToi.getD 0) > 0))).mergeSort
            (fun a b => decide ((b.avgToi.getD 0) ≤ (a.avgToi.getD 0)))).take 4
        let lm : List (String × ℚ) := linemates.foldl
          (fun m p =>
            let name := ((p.firstName.getD ("")) ++ (" ") ++ (p.lastName.getD (""))).trim
            Js.setA m name ((Js.orQ (Js.getA m name) 1.0) * linemateDropRate))
          impact.affectedLinemates
        { impact with affectedLinemates := lm }
      else impact
    | none => impact
  { impact with manGamesLost := impact.manGamesLost + 5 }

/-- The accumulating state of the `calculateTeamImpact` injury loop. -/
structure ImpactLoopState where
  impact : TeamInjuryImpact
  centersOut : ℕ
  defensemenOut : ℕ
  topPlayerInjured : Bool
deriving Repr

/-- One iteration of the `calculateTeamImpact` injury loop. -/
def processInjury (teamAbbrev : String) (players goalies : List RosterPlayer)
    (teamStats : TeamStats) (st : ImpactLoopState) (injury : PlayerInjury) : ImpactLoopState :=
  let playerStats := (players ++ goalies).find? (fun p =>
    normalizePlayerName ((p.firstName.getD ("")) ++ (" ") ++ (p.lastName.getD (""))) ==
      normalizePlayerName injury.playerName)
  if injury.position = "G" then
    let importance0 :=
      calculateGoalieImportance (playerStats.getD (placeholderGoalie injury teamAbbrev)) goalies
    let psId :=
      match playerStats with
      | some p => p.playerId
      | none => Js.Id'.undef
    let branch : GoalieSituation × Bool × PlayerImportance :=
      if Js.idTruthy psId then
        if importance0.toiRank = 1 then (.starter, false, importance0)
        else
          match goalies.find? (fun g => !(Js.idEq g.playerId psId)) with
          | some backup =>
            if Js.orQ backup.savePctg (Js.orQ backup.savePercentage 0) ≥ 0.913 then
              (.backup, true,
                { importance0 with winProbImpact := importance0.winProbImpact * 0.5 })
            else (.backup, false, importance0)
          | none => (.backup, false, importance0)
      else (.backup, false, importance0)
    let importance := branch.2.2
    let impact1 :=
      { st.impact with
          goalieSituation := branch.1
          isBackupGoalieElite := st.impact.isBackupGoalieElite || branch.2.1 }
    { st with impact := applyImportance players impact1 injury importance playerStats }
  else
    let importance :=
      calculatePlayerImportance (playerStats.getD (placeholderSkater injury teamAbbrev))
        teamStats players
    { impact := applyImportance players st.impact injury importance playerStats
      centersOut := if injury.position = "C" then st.centersOut + 1 else st.centersOut
      defensemenOut := if injury.position = "D" then st.defensemenOut + 1 else st.defensemenOut
      topPlayerInjured := st.topPlayerInjured || (importance.tier == 1) }

/-- The final clamp step of `calculateTeamImpact`
("Clamp adjustment values to reasonable bounds"). -/
def clampImpact (impact : TeamInjuryImpact) : TeamInjuryImpact :=
  { impact with
      totalWinProbAdjustment := max (-0.3) (min 0.3 impact.totalWinProbAdjustment)
      powerPlayAdjustment := max (-0.15) (min 0.15 impact.powerPlayAdjustment)
      penaltyKillAdjustment := max (-0.1) (min 0.1 impact.penaltyKillAdjustment)
      expectedGoalsForAdjustment := max (-0.5) (min 0.5 impact.expectedGoalsForAdjustment)
      expectedGoalsAgainstAdjustment :=
        max (-0.5) (min 0.5 impact.expectedGoalsAgainstAdjustment) }

/-- The function `calculateTeamImpact`, with the roster fetched by
`fetchTeamPlayerStats` supplied through the `players`, `goalies` and
`teamStats` arguments (the star-concentration cache write is dropped). -/
def calculateTeamImpact (teamAbbrev : String) (injuries : List PlayerInjury)
    (players goalies : List RosterPlayer) (teamStats : TeamStats) : TeamInjuryImpact :=
  let starConcentration := calculateStarConcentration players teamStats
  let impact0 : TeamInjuryImpact :=
    { teamAbbrev := teamAbbrev
      injuries := injuries
      totalWinProbAdjustment := 0
      powerPlayAdjustment := 0
      penaltyKillAdjustment := 0
      expectedGoalsForAdjustment := 0
      expectedGoalsAgainstAdjustment := 0
      goalieSituation := .starter
      isBackupGoalieElite := false
      affectedLinemates := []
      linePromotions := 0
      defenseDisruption := 0
      manGamesLost := 0
      injuryCount := 0
      compoundingMultiplier := 1.0
      starConcentration := starConcentration
      starPlayersOut := []
      summary := "" }
  let activeInjuries := injuries.filter (fun i =>
    decide (i.status = InjuryStatus.OUT ∨ i.status = InjuryStatus.IR ∨
      i.status = InjuryStatus.LTIR ∨ i.status = InjuryStatus.SUSPENDED ∨
      i.status = InjuryStatus.DAY_TO_DAY))
  if activeInjuries.isEmpty then { impact0 with summary := "No significant injuries" }
  else
    let st : ImpactLoopState := activeInjuries.foldl (processInjury teamAbbrev players goalies teamStats)
      { impact := { impact0 with injuryCount := activeInjuries.length }
        centersOut := 0
        defensemenOut := 0
        topPlayerInjured := false }
    let impact1 := st.impact
    let impact2 : TeamInjuryImpact :=
      if st.centersOut ≥ 1 then
        { impact1 with
            linePromotions := impact1.linePromotions + (st.centersOut : ℚ) * 3
            expectedGoalsForAdjustment :=
              impact1.expectedGoalsForAdjustment - 0.15 * (st.centersOut : ℚ) }
      else impact1
    let impact3 : TeamInjuryImpact :=
      if st.defensemenOut ≥ 1 then
        { impact2 with
            defenseDisruption := min ((st.defensemenOut : ℚ) * 0.3) 1.0
            expectedGoalsAgainstAdjustment :=
              impact2.expectedGoalsAgainstAdjustment + 0.2 * (st.defensemenOut : ℚ) }
      else impact2
    let impact4 : TeamInjuryImpact :=
      { impact3 with compoundingMultiplier :=
          calculateCompoundingMultiplier impact3.injuryCount impact3.manGamesLost }
    let concentrationMultiplier : ℚ :=
      if decide (impact4.starPlayersOut.length > 0) || st.topPlayerInjured then
        starConcentration.concentrationMultiplier
      else 1.0
    let impact5 : TeamInjuryImpact :=
      { impact4 with
          totalWinProbAdjustment := impact4.totalWinProbAdjustment *
            (impact4.compoundingMultiplier * concentrationMultiplier)
          powerPlayAdjustment := impact4.powerPlayAdjustment * impact4.compoundingMultiplier
          penaltyKillAdjustment := impact4.penaltyKillAdjustment * impact4.compoundingMultiplier }
    let impact6 : TeamInjuryImpact := clampImpact impact5
    let parts : List String :=
      (if impact6.starPlayersOut.length > 0 then
        [("Out: ") ++ String.intercalate (", ") impact6.starPlayersOut]
      else []) ++
      (if impact6.goalieSituation = GoalieSituation.backup then
        [if impact6.isBackupGoalieElite then ("Elite backup") else ("Backup goalie")]
      else []) ++
      (if impact6.starConcentration.riskLevel = RiskLevel.extreme ∨
          impact6.starConcentration.riskLevel = RiskLevel.high then
        [("⚠️ ") ++ (riskLevelStr impact6.starConcentration.riskLevel).toUpper ++
          (" star dependency (") ++ impact6.starConcentration.description ++ (")")]
      else []) ++
      (if impact6.compoundingMultiplier > 1.1 then
        [toString impact6.injuryCount ++ (" injuries compounding")]
      else [])
    let summary := Js.orS (some (String.intercalate (" | ") parts)) ("Minor injuries only")
    { impact6 with summary := summary }

end Injury

/-! ## Claim theorems -/

/-- Claim C1: the spec says the compounding multiplier is non-decreasing in
the injury count, and in particular at least the single-injury value for two
simultaneous injuries. The code violates this: with man-games lost fixed at
10, one injury gives multiplier 1 while two injuries give 0.15 — the step
table drops below the no-compounding baseline, which also makes the cap at
2.0 and the `> 1.1` "injuries compounding" summary check unreachable. -/
theorem calculateCompoundingMultiplier_two_below_one :
    Injury.calculateCompoundingMultiplier 1 10 = 1 ∧
    Injury.calculateCompoundingMultiplier 2 10 = 3/20 ∧
    Injury.calculateCompoundingMultiplier 2 10 < Injury.calculateCompoundingMultiplier 1 10 := by
  refine ⟨?_, ?_, ?_⟩ <;> norm_num [Injury.calculateCompoundingMultiplier]

/-- Claim C10: `americanToImpliedProb` is total, its value lies in `[0, 1)`,
and it computes `0` at odds `0`, `100/(odds+100)` for positive odds and
`|odds|/(|odds|+100)` for negative odds. -/
theorem americanToImpliedProb_total_bounds : ∀ odds : ℚ,
    0 ≤ Bets.americanToImpliedProb odds ∧ Bets.americanToImpliedProb odds < 1 ∧
    (odds = 0 → Bets.americanToImpliedProb odds = 0) ∧
    (0 < odds → Bets.americanToImpliedProb odds = 100 / (odds + 100)) ∧
    (odds < 0 → Bets.americanToImpliedProb odds = |odds| / (|odds| + 100)) := by
  intro odds
  unfold Bets.americanToImpliedProb
  rcases lt_trichotomy odds 0 with h | h | h
  · rw [if_neg (by linarith), if_neg (by linarith)]
    have h100 : (0 : ℚ) < |odds| + 100 := by positivity
    have habs : (0 : ℚ) < |odds| := abs_pos.mpr (by linarith)
    refine ⟨div_nonneg habs.le h100.le, ?_, ?_, ?_, ?_⟩
    · rw [div_lt_one h100]; linarith
    · intro h0; exact absurd h0 (by linarith)
    · intro h0; exact absurd h0 (by linarith)
    · intro _; rfl
  · subst h; norm_num
  · rw [if_neg (by linarith), if_pos h]
    have h100 : (0 : ℚ) < odds + 100 := by linarith
    refine ⟨by positivity, ?_, ?_, ?_, ?_⟩
    · rw [div_lt_one h100]; linarith
    · intro h0; exact absurd h0 (by linarith)
    · intro _; rfl
    · intro h0; exact absurd h0 (by linarith)

/-- Witness for C10 at concrete odds `+150`. -/
theorem americanToImpliedProb_total_bounds_witness :
    0 ≤ Bets.americanToImpliedProb 150 ∧ Bets.americanToImpliedProb 150 < 1 ∧
    Bets.americanToImpliedProb 150 = 100 / (150 + 100) :=
  ⟨(americanToImpliedProb_total_bounds 150).1,
    (americanToImpliedProb_total_bounds 150).2.1,
    (americanToImpliedProb_total_bounds 150).2.2.2.1 (by norm_num)⟩

/-- Claim C3 counterexample: with an authoritative-injured player and no
props data at all, the verdict is OUT but the agreement count is 1, not the
claimed 2 (the market signal is `unknown`, and only an explicit `no_props`
signal counts as a confirming second source). -/
theorem validate_empty_props_agreement_counterexample :
    (Injury.validatePlayerAvailability ("x") (["x"]) ([] : List String)
      Option.none).finalVerdict = Injury.Verdict.OUT ∧
    (Injury.validatePlayerAvailability ("x") (["x"]) ([] : List String)
      Option.none).sourcesAgree = 1 ∧
    (Injury.validatePlayerAvailability ("x") (["x"]) ([] : List String)
      Option.none).sourcesAgree ≠ 2 := by
  refine ⟨?_, ?_, ?_⟩ <;> decide

/-- Claim C3 (amended): for every player in the authoritative injured set,
an empty market-presence set yields verdict OUT with agreement count 1. -/
theorem validate_unavailable_empty_props :
    ∀ (name : String) (espnInjured : List String) (d : Option Injury.PlayerInjury),
      name ∈ espnInjured →
      (Injury.validatePlayerAvailability name espnInjured ([] : List String) d).finalVerdict =
        Injury.Verdict.OUT ∧
      (Injury.validatePlayerAvailability name espnInjured ([] : List String) d).sourcesAgree =
        1 := by
  intro name espn d h
  unfold Injury.validatePlayerAvailability
  simp [h]

/-- Witness for the amended C3 at a concrete player and set. -/
theorem validate_unavailable_empty_props_witness :
    (Injury.validatePlayerAvailability ("x") (["x"]) ([] : List String)
      Option.none).finalVerdict = Injury.Verdict.OUT ∧
    (Injury.validatePlayerAvailability ("x") (["x"]) ([] : List String)
      Option.none).sourcesAgree = 1 :=
  validate_unavailable_empty_props ("x") (["x"]) Option.none (by decide)

/-- Claim C7 counterexample: without book odds the lean gate also requires a
sufficient sample; probability 0.6 and confidence 0.8 with only 5 games
played (goalscorer minimum 30) classify as `none`, so the gate is not "on
probability and confidence alone". -/
theorem classifyBet_no_odds_sample_gate_counterexample :
    (Bets.classifyBet (0.6 : ℚ) Option.none 0.5 Bets.PropType.goalscorer 0.8
      5).classification = Bets.BetClassification.none ∧
    (0.6 : ℚ) ≥ Bets.MIN_PROB_FOR_LEAN ∧ (0.8 : ℚ) ≥ Bets.MIN_CONFIDENCE_VALUE := by
  refine ⟨?_, ?_, ?_⟩ <;>
    norm_num [Bets.classifyBet, Bets.PROP_THRESHOLDS, Bets.MIN_PROB_FOR_LEAN,
      Bets.MIN_CONFIDENCE_VALUE]

/-- Claim C7 (amended): without book odds only the `lean` tier (or `none`)
is reachable, and `lean` holds exactly when probability ≥ 0.50, confidence
≥ 0.50 and the prop-specific sample-size gate are all met. -/
theorem classifyBet_no_odds_only_lean :
    ∀ (p line c g : ℚ) (t : Bets.PropType),
      ((Bets.classifyBet p Option.none line t c g).classification =
          Bets.BetClassification.lean ∨
        (Bets.classifyBet p Option.none line t c g).classification =
          Bets.BetClassification.none) ∧
      ((Bets.classifyBet p Option.none line t c g).classification =
          Bets.BetClassification.lean ↔
        p ≥ Bets.MIN_PROB_FOR_LEAN ∧ c ≥ Bets.MIN_CONFIDENCE_VALUE ∧
          g ≥ (Bets.PROP_THRESHOLDS t).minGamesPlayed) := by
  intro p line c g t
  by_cases h : p ≥ Bets.MIN_PROB_FOR_LEAN ∧ c ≥ Bets.MIN_CONFIDENCE_VALUE ∧
      g ≥ (Bets.PROP_THRESHOLDS t).minGamesPlayed
  · constructor
    · left
      simp [Bets.classifyBet, h]
    · simp [Bets.classifyBet, h]
  · constructor
    · right
      simp [Bets.classifyBet, h]
    · simp [Bets.classifyBet, h]

/-- Witness for the amended C7 at concrete inputs. -/
theorem classifyBet_no_odds_only_lean_witness :
    (Bets.classifyBet (0.6 : ℚ) Option.none 0.5 Bets.PropType.goalscorer 0.8
      40).classification = Bets.BetClassification.lean :=
  (classifyBet_no_odds_only_lean 0.6 0.5 0.8 40 Bets.PropType.goalscorer).2.mpr
    (by norm_num [Bets.MIN_PROB_FOR_LEAN, Bets.MIN_CONFIDENCE_VALUE, Bets.PROP_THRESHOLDS])

/-- The C2 scenario player: recent rate 0.5 per game, season rate 0.3 per
game, no shot volume and no power-play time. -/
def c2Player : Props.PlayerStats :=
  { playerId := 1, playerName := "a", teamAbbrev := "AAA", position := "C"
    gamesPlayed := 20, seasonGoals := 6, seasonAssists := 0, seasonPoints := 6
    seasonShots := 0, seasonGoalsPerGame := 0.3, seasonAssistsPerGame := 0
    seasonPointsPerGame := 0.3, seasonShotsPerGame := 0, seasonPPTimePerGame := 0
    recentGoalsPerGame := 0.5, recentAssistsPerGame := 0, recentPointsPerGame := 0.5
    recentShotsPerGame := 0, recentPPTimePerGame := 0, recentGames := 5, shootingPct := 0 }

/-- The C2 scenario matchup: league-average opposing goalie and defense. -/
def c2Matchup : Props.MatchupData :=
  { oppTeamAbbrev := "OPP", oppGoalsAgainstPerGame := 3.0, oppGoalieSavePct := 0.905
    isHome := false }

/-- Claim C2 counterexample: with recent rate 0.5 and season rate 0.3 the
60/40 blend is 0.42, not the 0.38 the claim states (0.38 would be the blend
with the weights swapped). -/
theorem expectedGoals_base_rate_counterexample :
    (Props.calculateExpectedGoals c2Player c2Matchup).factors.baseGoalsPerGame = 21/50 ∧
    (Props.calculateExpectedGoals c2Player c2Matchup).factors.baseGoalsPerGame ≠ 19/50 := by
  refine ⟨?_, ?_⟩ <;>
    norm_num [Props.calculateExpectedGoals, c2Player, c2Matchup, Props.RECENT_WEIGHT,
      Props.SEASON_WEIGHT]

/-- Claim C2 (amended): the base rate for recent 0.5 / season 0.3 is 0.42;
the expected value returned is the base rate times the five situational
factors (so it equals the base rate exactly when all factors are 1), and the
anytime probability at λ is the Poisson complement 1 − e^(−λ), which at
λ = 0.42 lies strictly between 0 and 0.42 (≈ 0.343). -/
theorem expectedGoals_base_rate_amended :
    (∀ (p : Props.PlayerStats) (m : Props.MatchupData),
      (Props.calculateExpectedGoals p m).lambda =
        max 0 ((Props.calculateExpectedGoals p m).factors.baseGoalsPerGame *
          (Props.calculateExpectedGoals p m).factors.recentFormMultiplier *
          (Props.calculateExpectedGoals p m).factors.ppBoost *
          (Props.calculateExpectedGoals p m).factors.goalieAdjustment *
          (Props.calculateExpectedGoals p m).factors.homeAwayAdjustment *
          (Props.calculateExpectedGoals p m).factors.defenseAdjustment)) ∧
    (Props.calculateExpectedGoals c2Player c2Matchup).factors.baseGoalsPerGame = 21/50 ∧
    (∀ l : ℝ, Props.goalProbability l = 1 - Real.exp (-l)) ∧
    0 < Props.goalProbability ((21/50 : ℚ) : ℝ) ∧
    Props.goalProbability ((21/50 : ℚ) : ℝ) < 21/50 := by
  refine ⟨?_, ?_, fun l => rfl, ?_, ?_⟩
  · intro p m
    simp only [Props.calculateExpectedGoals]
  · norm_num [Props.calculateExpectedGoals, c2Player, c2Matchup, Props.RECENT_WEIGHT,
      Props.SEASON_WEIGHT]
  · have h : Real.exp (-((21/50 : ℚ) : ℝ)) < 1 := by
      rw [Real.exp_lt_one_iff]
      norm_num
    simp only [Props.goalProbability]
    linarith
  · have h := Real.add_one_lt_exp (x := -((21/50 : ℚ) : ℝ)) (by norm_num)
    simp only [Props.goalProbability]
    push_cast
    push_cast at h
    linarith

/-- Claim C8: a player whose game log is below the 15-game minimum, or whose
season per-game rate is below the type-specific quality threshold, is
excluded from `predictPlayerProp` output entirely (`none`). -/
theorem predictPlayerProp_excludes_low_quality :
    ∀ (pid : ℕ) (pn ta pos opp : String) (hm : Bool) (t : Props.PropType)
      (logs : List Props.PlayerGameLog) (od : Option Props.TeamDefense),
      (logs.length < Props.MIN_GAMES_FOR_PREDICTION →
        Props.predictPlayerProp pid pn ta pos opp hm t logs od = Option.none) ∧
      (∀ stats : Props.PlayerStats,
        Props.calculatePlayerStats pid pn ta pos logs = some stats →
        Props.productionForProp t stats < Props.QUALITY_THRESHOLDS t →
        Props.predictPlayerProp pid pn ta pos opp hm t logs od = Option.none) := by
  intro pid pn ta pos opp hm t logs od
  constructor
  · intro h
    have hs : Props.calculatePlayerStats pid pn ta pos logs = Option.none := by
      unfold Props.calculatePlayerStats
      rw [if_pos h]
    unfold Props.predictPlayerProp
    rw [hs]
  · intro stats hs hq
    unfold Props.predictPlayerProp
    rw [hs]
    simp [hq]

/-- Witness for C8: the empty game log is excluded. -/
theorem predictPlayerProp_excludes_low_quality_witness :
    Props.predictPlayerProp 1 ("a") ("b") ("c") ("d") true Props.PropType.goalscorer
      [] Option.none = Option.none :=
  (predictPlayerProp_excludes_low_quality 1 ("a") ("b") ("c") ("d") true
    Props.PropType.goalscorer [] Option.none).1
    (by norm_num [Props.MIN_GAMES_FOR_PREDICTION])

/-- Two concrete player records for the C9 counterexample: they agree on
games played and on the assists production measure and differ only in
season shot volume (0 versus 4 per game). -/
def confPlayerA : Props.PlayerStats :=
  { playerId := 1, playerName := "a", teamAbbrev := "AAA", position := "C"
    gamesPlayed := 15, seasonGoals := 0, seasonAssists := 0, seasonPoints := 0
    seasonShots := 0, seasonGoalsPerGame := 0, seasonAssistsPerGame := 0
    seasonPointsPerGame := 0, seasonShotsPerGame := 0, seasonPPTimePerGame := 0
    recentGoalsPerGame := 0, recentAssistsPerGame := 0, recentPointsPerGame := 0
    recentShotsPerGame := 0, recentPPTimePerGame := 0, recentGames := 0, shootingPct := 0 }

/-- Companion record to `confPlayerA` with a higher season shot volume. -/
def confPlayerB : Props.PlayerStats := { confPlayerA with seasonShotsPerGame := 4 }

/-- Claim C9 counterexample: `calculateConfidence` does not depend only on
the sample-size and production categories — two players with identical games
played and identical assists production get different confidence scores
because season shot volume carries its own bonus (and recent-form
consistency a fourth). -/
theorem calculateConfidence_two_categories_counterexample :
    confPlayerA.gamesPlayed = confPlayerB.gamesPlayed ∧
    Props.productionForProp Props.PropType.assists confPlayerA =
      Props.productionForProp Props.PropType.assists confPlayerB ∧
    Props.calculateConfidence confPlayerA Props.PropType.assists = 11/20 ∧
    Props.calculateConfidence confPlayerB Props.PropType.assists = 13/20 := by
  refine ⟨rfl, rfl, ?_, ?_⟩ <;>
  · simp only [Props.calculateConfidence, Props.productionForProp, confPlayerA, confPlayerB,
      Props.QUALITY_THRESHOLDS, Props.MIN_GAMES_FOR_PREDICTION]
    norm_num

/-- Spec-side decomposition of the confidence formula: the sample-size bonus
(three tiers). -/
def confidenceSampleBonus (player : Props.PlayerStats) : ℚ :=
  if player.gamesPlayed ≥ 40 then 0.15
  else if player.gamesPlayed ≥ 25 then 0.10
  else if player.gamesPlayed ≥ (Props.MIN_GAMES_FOR_PREDICTION : ℚ) then 0.05
  else 0

/-- Spec-side decomposition of the confidence formula: the
production-versus-threshold bonus (three tiers). -/
def confidenceProductionBonus (propType : Props.PropType) (player : Props.PlayerStats) : ℚ :=
  if Props.productionForProp propType player ≥ Props.QUALITY_THRESHOLDS propType * 3 then 0.15
  else if Props.productionForProp propType player ≥ Props.QUALITY_THRESHOLDS propType * 2 then 0.10
  else if Props.productionForProp propType player ≥ Props.QUALITY_THRESHOLDS propType then 0.05
  else 0

/-- Spec-side decomposition of the confidence formula: the shot-volume bonus
(two tiers). -/
def confidenceShotVolumeBonus (player : Props.PlayerStats) : ℚ :=
  if player.seasonShotsPerGame ≥ 4.0 then 0.10
  else if player.seasonShotsPerGame ≥ 3.0 then 0.05
  else 0

/-- Spec-side decomposition of the confidence formula: the recent-form
consistency bonus. -/
def confidenceFormBonus (player : Props.PlayerStats) : ℚ :=
  if player.recentGames ≥ 5 ∧
      |player.recentGoalsPerGame - player.seasonGoalsPerGame| < 0.1 then 0.05
  else 0

set_option maxHeartbeats 1000000 in
/-- Claim C9 (amended): the confidence score is the 0.50 base plus fixed
increments in exactly four categories — sample size (3 tiers), production
versus threshold (3 tiers), season shot volume (2 tiers) and recent-form
consistency (1 tier) — capped at 0.95. -/
theorem calculateConfidence_decomposition :
    ∀ (player : Props.PlayerStats) (t : Props.PropType),
      Props.calculateConfidence player t =
        min 0.95 (0.5 + confidenceSampleBonus player + confidenceProductionBonus t player +
          confidenceShotVolumeBonus player + confidenceFormBonus player) := by
  intro player t
  simp only [Props.calculateConfidence, confidenceSampleBonus, confidenceProductionBonus,
    confidenceShotVolumeBonus, confidenceFormBonus]
  split_ifs <;> norm_num

/-- Every classification priority is at most 4 (the `none` tier). -/
theorem priority_le_four (x : Bets.BetClassification) : Bets.priority x ≤ 4 := by
  cases x <;> simp [Bets.priority]

/-- The classification chain of `classifyBet` never improves when the edge
decreases: all of its edge conditions are upward closed. -/
theorem classificationFor_monotone (thr : Bets.PropThresholds) (c p g : ℚ) {e1 e2 : ℚ}
    (h : e1 ≤ e2) :
    Bets.priority (Bets.classificationFor thr e2 c p g) ≤
      Bets.priority (Bets.classificationFor thr e1 c p g) := by
  unfold Bets.classificationFor
  by_cases h1 : e1 ≥ thr.minEdgeBest ∧ c ≥ Bets.MIN_CONFIDENCE_BEST ∧
      g ≥ thr.minGamesPlayed
  · have h2 : e2 ≥ thr.minEdgeBest ∧ c ≥ Bets.MIN_CONFIDENCE_BEST ∧
        g ≥ thr.minGamesPlayed := ⟨le_trans h1.1 h, h1.2⟩
    rw [if_pos h1, if_pos h2]
  · rw [if_neg h1]
    by_cases h3 : e1 ≥ thr.minEdgeStrong ∧ c ≥ Bets.MIN_CONFIDENCE_STRONG ∧
        g ≥ thr.minGamesPlayed
    · have h4 : e2 ≥ thr.minEdgeStrong ∧ c ≥ Bets.MIN_CONFIDENCE_STRONG ∧
          g ≥ thr.minGamesPlayed := ⟨le_trans h3.1 h, h3.2⟩
      rw [if_pos h3]
      by_cases h5 : e2 ≥ thr.minEdgeBest ∧ c ≥ Bets.MIN_CONFIDENCE_BEST ∧
          g ≥ thr.minGamesPlayed
      · rw [if_pos h5]; simp [Bets.priority]
      · rw [if_neg h5, if_pos h4]
    · rw [if_neg h3]
      by_cases h6 : e1 ≥ thr.minEdgeValue ∧ c ≥ Bets.MIN_CONFIDENCE_VALUE ∧
          g ≥ thr.minGamesPlayed
      · have h7 : e2 ≥ thr.minEdgeValue ∧ c ≥ Bets.MIN_CONFIDENCE_VALUE ∧
            g ≥ thr.minGamesPlayed := ⟨le_trans h6.1 h, h6.2⟩
        rw [if_pos h6]
        by_cases h8 : e2 ≥ thr.minEdgeBest ∧ c ≥ Bets.MIN_CONFIDENCE_BEST ∧
            g ≥ thr.minGamesPlayed
        · rw [if_pos h8]; simp [Bets.priority]
        · rw [if_neg h8]
          by_cases h9 : e2 ≥ thr.minEdgeStrong ∧ c ≥ Bets.MIN_CONFIDENCE_STRONG ∧
              g ≥ thr.minGamesPlayed
          · rw [if_pos h9]; simp [Bets.priority]
          · rw [if_neg h9, if_pos h7]
      · rw [if_neg h6]
        by_cases hA : p ≥ Bets.MIN_PROB_FOR_BEST ∧ c ≥ Bets.MIN_CONFIDENCE_VALUE ∧ e1 > 0
        · have hB : p ≥ Bets.MIN_PROB_FOR_BEST ∧ c ≥ Bets.MIN_CONFIDENCE_VALUE ∧ e2 > 0 :=
            ⟨hA.1, hA.2.1, lt_of_lt_of_le hA.2.2 h⟩
          rw [if_pos hA]
          by_cases hC : e2 ≥ thr.minEdgeBest ∧ c ≥ Bets.MIN_CONFIDENCE_BEST ∧
              g ≥ thr.minGamesPlayed
          · rw [if_pos hC]; simp [Bets.priority]
          · rw [if_neg hC]
            by_cases hD : e2 ≥ thr.minEdgeStrong ∧ c ≥ Bets.MIN_CONFIDENCE_STRONG ∧
                g ≥ thr.minGamesPlayed
            · rw [if_pos hD]; simp [Bets.priority]
            · rw [if_neg hD]
              by_cases hE : e2 ≥ thr.minEdgeValue ∧ c ≥ Bets.MIN_CONFIDENCE_VALUE ∧
                  g ≥ thr.minGamesPlayed
              · rw [if_pos hE]; simp [Bets.priority]
              · rw [if_neg hE, if_pos hB]
        · rw [if_neg hA]
          refine le_trans (priority_le_four _) ?_
          simp [Bets.priority]

/-- The classification of `classifyBet` with book odds present factors
through the edge. -/
theorem classifyBet_classification_eq (pr line c g o : ℚ) (t : Bets.PropType) (ho : o ≠ 0) :
    (Bets.classifyBet pr (some o) line t c g).classification =
      Bets.classificationFor (Bets.PROP_THRESHOLDS t) (pr - Bets.americanToImpliedProb o)
        c pr g := by
  simp [Bets.classifyBet, ho]

/-- Claim C6: with model probability, confidence, sample size and prop type
fixed, a strictly larger edge never yields a strictly worse tier in the
`best_bet > strong_value > value > lean > none` order (tier priority is
antitone in the edge). -/
theorem classifyBet_monotone_in_edge :
    ∀ (p line c g o1 o2 : ℚ) (t : Bets.PropType),
      o1 ≠ 0 → o2 ≠ 0 →
      p - Bets.americanToImpliedProb o1 < p - Bets.americanToImpliedProb o2 →
      Bets.priority (Bets.classifyBet p (some o2) line t c g).classification ≤
        Bets.priority (Bets.classifyBet p (some o1) line t c g).classification := by
  intro p line c g o1 o2 t h1 h2 h
  rw [classifyBet_classification_eq p line c g o1 t h1,
    classifyBet_classification_eq p line c g o2 t h2]
  exact classificationFor_monotone (Bets.PROP_THRESHOLDS t) c p g h.le

/-- Witness for C6: at probability 0.6, edges 0.10 (odds +100) and 0.35
(odds +300) on goalscorer props with confidence 0.8 and 40 games. -/
theorem classifyBet_monotone_in_edge_witness :
    Bets.priority (Bets.classifyBet (0.6 : ℚ) (some 300) 0.5 Bets.PropType.goalscorer 0.8
        40).classification ≤
      Bets.priority (Bets.classifyBet (0.6 : ℚ) (some 100) 0.5 Bets.PropType.goalscorer 0.8
        40).classification :=
  classifyBet_monotone_in_edge 0.6 0.5 0.8 40 100 300 Bets.PropType.goalscorer
    (by norm_num) (by norm_num) (by norm_num [Bets.americanToImpliedProb])

/-- Lower end of a symmetric clamp. -/
theorem clamp_lower_aux (a b x : ℚ) : a ≤ max a (min b x) := le_max_left a _

/-- Upper end of a symmetric clamp. -/
theorem clamp_upper_aux (a b x : ℚ) (h : a ≤ b) : max a (min b x) ≤ b :=
  max_le h (min_le_left b x)

set_option maxHeartbeats 1000000 in
/-- Claim C5: for every input, the adjustments returned by
`calculateTeamImpact` satisfy the documented symmetric clamp bounds:
win probability in [-0.3, 0.3], power play in [-0.15, 0.15], penalty kill
in [-0.1, 0.1], and both expected-goals deltas in [-0.5, 0.5]. -/
theorem calculateTeamImpact_clamped :
    ∀ (teamAbbrev : String) (injuries : List Injury.PlayerInjury)
      (players goalies : List Injury.RosterPlayer) (teamStats : Injury.TeamStats),
      -(0.3 : ℚ) ≤ (Injury.calculateTeamImpact teamAbbrev injuries players goalies
          teamStats).totalWinProbAdjustment ∧
      (Injury.calculateTeamImpact teamAbbrev injuries players goalies
          teamStats).totalWinProbAdjustment ≤ 0.3 ∧
      -(0.15 : ℚ) ≤ (Injury.calculateTeamImpact teamAbbrev injuries players goalies
          teamStats).powerPlayAdjustment ∧
      (Injury.calculateTeamImpact teamAbbrev injuries players goalies
          teamStats).powerPlayAdjustment ≤ 0.15 ∧
      -(0.1 : ℚ) ≤ (Injury.calculateTeamImpact teamAbbrev injuries players goalies
          teamStats).penaltyKillAdjustment ∧
      (Injury.calculateTeamImpact teamAbbrev injuries players goalies
          teamStats).penaltyKillAdjustment ≤ 0.1 ∧
      -(0.5 : ℚ) ≤ (Injury.calculateTeamImpact teamAbbrev injuries players goalies
          teamStats).expectedGoalsForAdjustment ∧
      (Injury.calculateTeamImpact teamAbbrev injuries players goalies
          teamStats).expectedGoalsForAdjustment ≤ 0.5 ∧
      -(0.5 : ℚ) ≤ (Injury.calculateTeamImpact teamAbbrev injuries players goalies
          teamStats).expectedGoalsAgainstAdjustment ∧
      (Injury.calculateTeamImpact teamAbbrev injuries players goalies
          teamStats).expectedGoalsAgainstAdjustment ≤ 0.5 := by
  intro ta injs ps gs ts
  simp only [Injury.calculateTeamImpact]
  split
  · norm_num
  · simp only [Injury.clampImpact]
    refine ⟨clamp_lower_aux _ _ _, clamp_upper_aux _ _ _ (by norm_num),
      clamp_lower_aux _ _ _, clamp_upper_aux _ _ _ (by norm_num),
      clamp_lower_aux _ _ _, clamp_upper_aux _ _ _ (by norm_num),
      clamp_lower_aux _ _ _, clamp_upper_aux _ _ _ (by norm_num),
      clamp_lower_aux _ _ _, clamp_upper_aux _ _ _ (by norm_num)⟩


theorem getA_setA_self {α : Type} (l : List (String × α)) (k : String) (v : α) :
    Js.getA (Js.setA l k v) k = some v := by
  induction l with
  | nil => simp [Js.setA, Js.getA]
  | cons p rest ih =>
    by_cases h : p.1 = k
    · simp [Js.setA, h, Js.getA]
    · simp [Js.setA, h, Js.getA, ih]

theorem getA_setA_ne {α : Type} (l : List (String × α)) (k k' : String) (v : α)
    (h : k ≠ k') :
    Js.getA (Js.setA l k v) k' = Js.getA l k' := by
  induction l with
  | nil => simp [Js.setA, Js.getA, h]
  | cons p rest ih =>
    by_cases hp : p.1 = k
    · simp [Js.setA, hp, Js.getA, h]
    · simp [Js.setA, hp, Js.getA, ih]

theorem mem_insertSet_self (l : List String) (x : String) : x ∈ Js.insertSet l x := by
  unfold Js.insertSet
  split
  · assumption
  · simp

theorem mem_insertSet_mono (l : List String) (x y : String) (h : y ∈ l) :
    y ∈ Js.insertSet l x := by
  unfold Js.insertSet
  split
  · exact h
  · exact List.mem_append_left _ h

/-- A validation step for a different player preserves the availability
lookup for `name`. -/
theorem validateStep_preserves_lookup (ei : List (String × List Injury.PlayerInjury))
    (espn props : List String) (st : Injury.ValidationState) (x name : String)
    (hx : x ≠ name) :
    Js.getA (Injury.validateStep ei espn props st x).playerAvailability name =
      Js.getA st.playerAvailability name := by
  simp only [Injury.validateStep]
  split_ifs <;> simp [getA_setA_ne _ _ _ _ hx]

theorem validateStep_injured_mono (ei : List (String × List Injury.PlayerInjury))
    (espn props : List String) (st : Injury.ValidationState) (x name : String)
    (h : name ∈ st.allInjuredNames) :
    name ∈ (Injury.validateStep ei espn props st x).allInjuredNames := by
  simp only [Injury.validateStep]
  split_ifs <;> simp_all [mem_insertSet_mono]

theorem foldl_validateStep_preserves (ei : List (String × List Injury.PlayerInjury))
    (espn props : List String) (l : List String) (st : Injury.ValidationState)
    (name : String) (h : name ∉ l) :
    Js.getA ((l.foldl (Injury.validateStep ei espn props) st).playerAvailability) name =
      Js.getA st.playerAvailability name := by
  induction l generalizing st with
  | nil => rfl
  | cons x rest ih =>
    have hx : x ≠ name := fun hxe => h (hxe ▸ List.mem_cons_self x rest)
    have hr : name ∉ rest := fun hm => h (List.mem_cons_of_mem x hm)
    rw [List.foldl_cons, ih _ hr, validateStep_preserves_lookup _ _ _ _ _ _ hx]

theorem foldl_validateStep_injured_mono (ei : List (String × List Injury.PlayerInjury))
    (espn props : List String) (l : List String) (st : Injury.ValidationState)
    (name : String) (h : name ∈ st.allInjuredNames) :
    name ∈ ((l.foldl (Injury.validateStep ei espn props) st).allInjuredNames) := by
  induction l generalizing st with
  | nil => exact h
  | cons x rest ih =>
    rw [List.foldl_cons]
    exact ih _ (validateStep_injured_mono _ _ _ _ _ _ h)

/-- The validation step files the validator's verdict for the processed
player. -/
theorem validateStep_self_lookup (ei : List (String × List Injury.PlayerInjury))
    (espn props : List String) (st : Injury.ValidationState) (name : String) :
    Js.getA (Injury.validateStep ei espn props st name).playerAvailability name =
      some (Injury.validatePlayerAvailability name espn props
        (Injury.findInjuryDetails ei name)) := by
  simp only [Injury.validateStep]
  split_ifs <;> simp [getA_setA_self]

theorem validateStep_self_injured (ei : List (String × List Injury.PlayerInjury))
    (espn props : List String) (st : Injury.ValidationState) (name : String)
    (h : (Injury.validatePlayerAvailability name espn props
        (Injury.findInjuryDetails ei name)).finalVerdict ≠ Injury.Verdict.PLAYING) :
    name ∈ (Injury.validateStep ei espn props st name).allInjuredNames := by
  simp only [Injury.validateStep]
  split_ifs with h1
  · exact mem_insertSet_self _ _
  · exact mem_insertSet_self _ _

theorem foldl_validateStep_spec (ei : List (String × List Injury.PlayerInjury))
    (espn props : List String) (l : List String) (name : String) (hmem : name ∈ l) :
    ∀ st : Injury.ValidationState,
      Js.getA ((l.foldl (Injury.validateStep ei espn props) st).playerAvailability) name =
        some (Injury.validatePlayerAvailability name espn props
          (Injury.findInjuryDetails ei name)) ∧
      ((Injury.validatePlayerAvailability name espn props
          (Injury.findInjuryDetails ei name)).finalVerdict ≠ Injury.Verdict.PLAYING →
        name ∈ ((l.foldl (Injury.validateStep ei espn props) st).allInjuredNames)) := by
  induction l with
  | nil => cases hmem
  | cons x rest ih =>
    intro st
    rw [List.foldl_cons]
    by_cases hx : x = name
    · subst hx
      by_cases hrest : x ∈ rest
      · exact ih hrest _
      · constructor
        · rw [foldl_validateStep_preserves _ _ _ _ _ _ hrest]
          exact validateStep_self_lookup _ _ _ _ _
        · intro hv
          exact foldl_validateStep_injured_mono _ _ _ _ _ _
            (validateStep_self_injured _ _ _ _ _ hv)
    · have hrest : name ∈ rest := by
        rcases List.mem_cons.mp hmem with h | h
        · exact absurd h.symm hx
        · exact h
      exact ih hrest _

/-- Claim C4: for every player marked unavailable by the authoritative ESPN
feed who is present in the market-presence (props) set,
`validatePlayerAvailability` returns verdict UNCERTAIN, and the refresh
cycle adds the player to the injured-name set (treated downstream as
unavailable) while the availability map retains the UNCERTAIN verdict for
audit. -/
theorem refresh_uncertain_treated_unavailable :
    ∀ (espnInjuries : List (String × List Injury.PlayerInjury)) (props : List String)
      (name : String),
      name ∈ Injury.espnInjuredFrom espnInjuries →
      name ∈ props →
      (Injury.validatePlayerAvailability name (Injury.espnInjuredFrom espnInjuries) props
          (Injury.findInjuryDetails espnInjuries name)).finalVerdict =
        Injury.Verdict.UNCERTAIN ∧
      Js.getA (Injury.refreshValidation espnInjuries props).playerAvailability name =
        some (Injury.validatePlayerAvailability name (Injury.espnInjuredFrom espnInjuries)
          props (Injury.findInjuryDetails espnInjuries name)) ∧
      name ∈ (Injury.refreshValidation espnInjuries props).allInjuredNames := by
  intro ei props name hespn hprops
  have hlen : props.length > 0 := List.length_pos.mpr (List.ne_nil_of_mem hprops)
  have hv : (Injury.validatePlayerAvailability name (Injury.espnInjuredFrom ei) props
      (Injury.findInjuryDetails ei name)).finalVerdict = Injury.Verdict.UNCERTAIN := by
    simp [Injury.validatePlayerAvailability, hespn, hprops, hlen]
  refine ⟨hv, ?_, ?_⟩
  · simp only [Injury.refreshValidation]
    exact (foldl_validateStep_spec ei (Injury.espnInjuredFrom ei) props
      (Injury.espnInjuredFrom ei) name hespn _).1
  · simp only [Injury.refreshValidation]
    exact (foldl_validateStep_spec ei (Injury.espnInjuredFrom ei) props
      (Injury.espnInjuredFrom ei) name hespn _).2 (by rw [hv]; simp)

/-- A concrete ESPN injury record for the C4 witness. -/
def c4Injury : Injury.PlayerInjury :=
  { playerId := "9", playerName := "x", team := "Boston Bruins", teamAbbrev := "BOS"
    position := "C", status := Injury.InjuryStatus.OUT, injuryType := "Lower Body"
    description := "", expectedReturn := none, gamesOut := none, source := "ESPN"
    updatedAt := "" }

/-- Witness for C4 at a concrete one-player cache state. -/
theorem refresh_uncertain_treated_unavailable_witness :
    (Injury.validatePlayerAvailability ("x")
        (Injury.espnInjuredFrom [(("BOS"), [c4Injury])]) (["x"])
        (Injury.findInjuryDetails [(("BOS"), [c4Injury])] ("x"))).finalVerdict =
      Injury.Verdict.UNCERTAIN ∧
    ("x") ∈ (Injury.refreshValidation [(("BOS"), [c4Injury])] (["x"])).allInjuredNames :=
  ⟨(refresh_uncertain_treated_unavailable [(("BOS"), [c4Injury])] (["x"]) ("x")
      (by decide) (by decide)).1,
    (refresh_uncertain_treated_unavailable [(("BOS"), [c4Injury])] (["x"]) ("x")
      (by decide) (by decide)).2.2⟩
